import Mathlib

/-!
Verification of the gesture-to-command control pipeline of the F450
ground-station repository.

The embedding follows the TypeScript source:
* `components/VideoHUD.tsx` (`onResults` callback): geometry extraction,
  gesture classification, intensity normalisation/smoothing/deadzone,
  RC command mapping, and the link-loss failsafe.
* `App.tsx` (`handleKeyDown`): the calibration state machine driven by the
  `C` (begin calibration) and `S` (sample) keys.
* `utils/math.ts`: `calculateEMA`, `clamp`.
* `constants.ts`: `APP_CONFIG`.

Numbers: JavaScript numbers are modelled as rationals (`ℚ`) in the main
model; RC channel values are integers (`ℤ`) since every channel is built
from integer constants and `Math.floor` results.  Rational division by
zero (`x / 0 = 0` in Lean) differs from IEEE-754; the one place where this
matters — the degenerate-calibration division in the normaliser — is
modelled separately and faithfully with an explicit IEEE-style value
domain (`JSNum`) carrying NaN and the infinities.
-/

namespace F450

/-- `APP_CONFIG.RC_MIN` (constants.ts). -/
def RC_MIN : ℤ := 1000

/-- `APP_CONFIG.RC_MID` (constants.ts). -/
def RC_MID : ℤ := 1500

/-- `APP_CONFIG.RC_MAX` (constants.ts). -/
def RC_MAX : ℤ := 2000

/-- `APP_CONFIG.EMA_ALPHA = 0.2` (constants.ts). -/
def EMA_ALPHA : ℚ := 2/10

/-- `APP_CONFIG.DEADZONE = 0.05` (constants.ts). -/
def DEADZONE : ℚ := 5/100

/-- `calculateEMA` from utils/math.ts: `alpha * current + (1 - alpha) * old`. -/
def calculateEMA (current previous alpha : ℚ) : ℚ :=
  alpha * current + (1 - alpha) * previous

/-- `clamp` from utils/math.ts: `Math.min(Math.max(val, min), max)`. -/
def clamp (val lo hi : ℚ) : ℚ :=
  min (max val lo) hi

/-- The `GestureType` enum from types.ts (the string payloads are irrelevant
to control flow and omitted). -/
inductive GestureType where
  | NONE
  | HOVER
  | FORWARD
  | BACKWARD
  | UP
deriving DecidableEq, Repr

/-- The `RCChannels` interface from types.ts: ch1 roll, ch2 pitch,
ch3 throttle, ch4 yaw. -/
structure RCChannels where
  ch1 : ℤ
  ch2 : ℤ
  ch3 : ℤ
  ch4 : ℤ
deriving DecidableEq, Repr

/-- The neutral base vector `{RC_MID, RC_MID, RC_MIN, RC_MID}`: the initial
value of `lastValidRC` (VideoHUD.tsx lines 55-60) and the failsafe reset
vector (lines 195-200). -/
def neutralRC : RCChannels :=
  ⟨RC_MID, RC_MID, RC_MIN, RC_MID⟩

/-- The `CalibrationState` interface from types.ts.  `stage` is the numeric
code used by the source: 0 Idle, 1 WaitFar, 2 WaitNear, 3 Ready.
`minScale` is the far-reach span, `maxScale` the near-reach span. -/
structure CalibrationState where
  stage : ℕ
  minScale : ℚ
  maxScale : ℚ
deriving DecidableEq, Repr

/-- The initial calibration state, App.tsx line 24:
`{ stage: 0, minScale: 0.1, maxScale: 0.3 }`. -/
def initialCalibration : CalibrationState :=
  ⟨0, 1/10, 3/10⟩

/-- The `C`-key handler, App.tsx lines 100-103:
`setCalibration(prev => ({ ...prev, stage: 1 }))`.  Note the spread keeps
`minScale` and `maxScale` as they were. -/
def handleKeyC (c : CalibrationState) : CalibrationState :=
  { c with stage := 1 }

/-- The `S`-key handler, App.tsx lines 105-124, applied to the most recent
sampled span `v` (`lastSampleRef.current`).  The returned Bool records
whether the validation-error branch (`addLog('ERROR', …)`, line 117) ran. -/
def handleKeyS (v : ℚ) (c : CalibrationState) : CalibrationState × Bool :=
  if c.stage = 1 then
    ({ c with minScale := v, stage := 2 }, false)
  else if c.stage = 2 then
    if v ≤ c.minScale then
      (c, true)
    else
      ({ c with maxScale := v, stage := 3 }, false)
  else
    (c, false)

/-- A discrete calibration event: the `C` key, or the `S` key with the span
value that `lastSampleRef` holds at that moment. -/
inductive CalEvent where
  | keyC : CalEvent
  | keyS : ℚ → CalEvent

/-- One calibration transition. -/
def calStep : CalEvent → CalibrationState → CalibrationState
  | .keyC, c => handleKeyC c
  | .keyS v, c => (handleKeyS v c).1

/-- Calibration states reachable from the initial state by any sequence of
`C`/`S` events. -/
inductive ReachableCal : CalibrationState → Prop where
  | init : ReachableCal initialCalibration
  | step (e : CalEvent) {c : CalibrationState} :
      ReachableCal c → ReachableCal (calStep e c)

/-- Gesture classification, VideoHUD.tsx lines 119-130, applied to the
`fingers` list of 0/1 flags in order [index, middle, ring, pinky]. -/
def classifyGesture (fingers : List ℕ) : GestureType :=
  let sumFingers := fingers.sum
  if sumFingers = 4 then .FORWARD
  else if sumFingers = 0 then .BACKWARD
  else if fingers.headD 0 = 1 ∧ sumFingers = 1 then .UP
  else .HOVER

/-- Builds the `fingers` list of VideoHUD.tsx line 115 from four extension
flags (true = tip above pip, finger extended). -/
def fingerBits (b1 b2 b3 b4 : Bool) : List ℕ :=
  [cond b1 1 0, cond b2 1 0, cond b3 1 0, cond b4 1 0]

/-- Deadzone step of `onResults`, VideoHUD.tsx lines 152-157:
`currentIntensity = smoothed > DEADZONE ? smoothed : 0`. -/
def deadzoneIntensity (smoothed : ℚ) : ℚ :=
  if smoothed > DEADZONE then smoothed else 0

/-- RC mapping step of `onResults`, VideoHUD.tsx lines 159-182: reset to
the base vector, then adjust pitch (ch2) or throttle (ch3) by the gesture. -/
def rcMapping (gesture : GestureType) (currentIntensity : ℚ) : RCChannels :=
  let base : RCChannels := ⟨RC_MID, RC_MID, RC_MIN, RC_MID⟩
  let amp : ℤ := ⌊currentIntensity * 450⌋
  match gesture with
  | .FORWARD => { base with ch2 := RC_MID - amp }
  | .BACKWARD => { base with ch2 := RC_MID + amp }
  | .UP => { base with ch3 := RC_MIN + ⌊currentIntensity * 800⌋ }
  | _ => base

/-- Every channel lies within the PWM limits `[RC_MIN, RC_MAX]`. -/
def inBounds (rc : RCChannels) : Prop :=
  RC_MIN ≤ rc.ch1 ∧ rc.ch1 ≤ RC_MAX ∧
  RC_MIN ≤ rc.ch2 ∧ rc.ch2 ≤ RC_MAX ∧
  RC_MIN ≤ rc.ch3 ∧ rc.ch3 ≤ RC_MAX ∧
  RC_MIN ≤ rc.ch4 ∧ rc.ch4 ≤ RC_MAX

instance (rc : RCChannels) : Decidable (inBounds rc) := by
  unfold inBounds; infer_instance

/-- One hand-present observation, as `onResults` derives it from the first
landmark list: the wrist-to-middle-MCP span (`rawScale`) and the four
finger-extension flags. -/
structure HandObs where
  rawScale : ℚ
  fingers : List ℕ
deriving DecidableEq, Repr

/-- The mutable refs of VideoHUD.tsx threaded through `onResults`:
`logicState.current.smoothedIntensity`, `lastHandTime.current` and
`lastValidRC.current`. -/
structure PipelineState where
  smoothedIntensity : ℚ
  lastHandTime : ℤ
  lastValidRC : RCChannels
deriving DecidableEq, Repr

/-- The pipeline state as initialised at mount time `t0` (VideoHUD.tsx
lines 48-60: smoothed intensity 0, `lastHandTime = Date.now()`,
`lastValidRC` the neutral vector). -/
def initialState (t0 : ℤ) : PipelineState :=
  ⟨0, t0, neutralRC⟩

/-- What `onResults` hands to `onGestureUpdate` (VideoHUD.tsx line 206). -/
structure FrameOutput where
  gesture : GestureType
  intensity : ℚ
  rc : RCChannels
deriving DecidableEq, Repr

/-- One run of the control part of `onResults` (VideoHUD.tsx lines 95-207),
given the calibration state, the hand observation for this frame (`none` =
no hand detected), the current wall-clock time `now` (`Date.now()`), and
the mutable state.  Returns the emitted frame output and the new state.

Source correspondence:
* hand present (lines 100-131): `lastHandTime := now`, gesture classified;
* hand present and `calibration.stage === 3` (lines 138-185): normalise,
  EMA-smooth, deadzone, map to RC, store as `lastValidRC`;
* hand present, stage ≠ 3: `rcCmd` stays `{...lastValidRC}` (line 135) and
  `currentIntensity` stays 0 (line 134);
* no hand (lines 187-202): hold `lastValidRC` while
  `now - lastHandTime < 500`, otherwise the neutral vector; no ref is
  updated.

The rational division below returns 0 when `maxScale = minScale`, where
JavaScript produces NaN/Infinity; that degenerate divisor is excluded by
the Ready-stage invariant and is modelled faithfully by `jsNormalizeSmooth`
further down. -/
def onResultsStep (cal : CalibrationState) (hand : Option HandObs)
    (now : ℤ) (s : PipelineState) : FrameOutput × PipelineState :=
  match hand with
  | some h =>
    let gesture := classifyGesture h.fingers
    if cal.stage = 3 then
      let normalized :=
        clamp ((h.rawScale - cal.minScale) / (cal.maxScale - cal.minScale)) 0 1
      let smoothed := calculateEMA normalized s.smoothedIntensity EMA_ALPHA
      let currentIntensity := deadzoneIntensity smoothed
      let rcCmd := rcMapping gesture currentIntensity
      (⟨gesture, currentIntensity, rcCmd⟩, ⟨smoothed, now, rcCmd⟩)
    else
      (⟨gesture, 0, s.lastValidRC⟩, ⟨s.smoothedIntensity, now, s.lastValidRC⟩)
  | none =>
    let timeSinceHand := now - s.lastHandTime
    let rcCmd := if timeSinceHand < 500 then s.lastValidRC else neutralRC
    (⟨GestureType.NONE, 0, rcCmd⟩, s)

/-! ## IEEE-style value domain for the degenerate-calibration analysis

JavaScript numbers are IEEE-754 doubles: dividing by zero yields
`±Infinity` (or `NaN` for `0/0`), `NaN` propagates through arithmetic and
through `Math.max`/`Math.min`, and every ordered comparison against `NaN`
is false.  `JSNum` captures exactly this structure over exact rationals
(rounding of finite values is not modelled — no claim here depends on it;
signed zero is collapsed to 0). -/

/-- A JavaScript number: a finite value, `NaN`, `+Infinity` or
`-Infinity`. -/
inductive JSNum where
  | num : ℚ → JSNum
  | nan : JSNum
  | inf : JSNum
  | ninf : JSNum
deriving DecidableEq, Repr

/-- JavaScript subtraction. -/
def jsSub : JSNum → JSNum → JSNum
  | .num a, .num b => .num (a - b)
  | .nan, _ => .nan
  | _, .nan => .nan
  | .inf, .inf => .nan
  | .inf, _ => .inf
  | .ninf, .ninf => .nan
  | .ninf, _ => .ninf
  | .num _, .inf => .ninf
  | .num _, .ninf => .inf

/-- JavaScript division: `0/0 = NaN`, `x/0 = ±Infinity` for `x ≠ 0`. -/
def jsDiv : JSNum → JSNum → JSNum
  | .num a, .num b =>
      if b = 0 then (if a = 0 then .nan else if 0 < a then .inf else .ninf)
      else .num (a / b)
  | .nan, _ => .nan
  | _, .nan => .nan
  | .inf, .inf => .nan
  | .inf, .ninf => .nan
  | .ninf, .inf => .nan
  | .ninf, .ninf => .nan
  | .inf, .num b => if b < 0 then .ninf else .inf
  | .ninf, .num b => if b < 0 then .inf else .ninf
  | .num _, .inf => .num 0
  | .num _, .ninf => .num 0

/-- JavaScript multiplication: `0 * ±Infinity = NaN`. -/
def jsMul : JSNum → JSNum → JSNum
  | .num a, .num b => .num (a * b)
  | .nan, _ => .nan
  | _, .nan => .nan
  | .inf, .num b => if b = 0 then .nan else if 0 < b then .inf else .ninf
  | .num a, .inf => if a = 0 then .nan else if 0 < a then .inf else .ninf
  | .ninf, .num b => if b = 0 then .nan else if 0 < b then .ninf else .inf
  | .num a, .ninf => if a = 0 then .nan else if 0 < a then .ninf else .inf
  | .inf, .inf => .inf
  | .ninf, .ninf => .inf
  | .inf, .ninf => .ninf
  | .ninf, .inf => .ninf

/-- JavaScript addition: `Infinity + -Infinity = NaN`. -/
def jsAdd : JSNum → JSNum → JSNum
  | .num a, .num b => .num (a + b)
  | .nan, _ => .nan
  | _, .nan => .nan
  | .inf, .ninf => .nan
  | .ninf, .inf => .nan
  | .inf, _ => .inf
  | _, .inf => .inf
  | .ninf, _ => .ninf
  | _, .ninf => .ninf

/-- JavaScript `<`: every comparison involving `NaN` is false. -/
def jsLt : JSNum → JSNum → Bool
  | .num a, .num b => decide (a < b)
  | .nan, _ => false
  | _, .nan => false
  | .inf, _ => false
  | _, .ninf => false
  | .ninf, _ => true
  | .num _, .inf => true

/-- JavaScript `Math.max`: `NaN` if either argument is `NaN`. -/
def jsMax (a b : JSNum) : JSNum :=
  match a, b with
  | .nan, _ => .nan
  | _, .nan => .nan
  | _, _ => if jsLt a b then b else a

/-- JavaScript `Math.min`: `NaN` if either argument is `NaN`. -/
def jsMin (a b : JSNum) : JSNum :=
  match a, b with
  | .nan, _ => .nan
  | _, .nan => .nan
  | _, _ => if jsLt a b then a else b

/-- `clamp` from utils/math.ts under JavaScript number semantics. -/
def jsClamp (val lo hi : JSNum) : JSNum :=
  jsMin (jsMax val lo) hi

/-- `calculateEMA` from utils/math.ts under JavaScript number semantics. -/
def jsCalculateEMA (current previous alpha : JSNum) : JSNum :=
  jsAdd (jsMul alpha current) (jsMul (jsSub (.num 1) alpha) previous)

/-- The normalise → EMA → deadzone steps of `onResults`
(VideoHUD.tsx lines 138-157) under JavaScript number semantics, for a
hand-present Ready-stage frame with calibration spans `minScale`/`maxScale`,
measured span `rawScale` and previous filter state `prevSmoothed`.
Returns the new `smoothedIntensity` ref value and `currentIntensity`. -/
def jsNormalizeSmooth (minScale maxScale rawScale prevSmoothed : JSNum) :
    JSNum × JSNum :=
  let normalized :=
    jsClamp (jsDiv (jsSub rawScale minScale) (jsSub maxScale minScale))
      (.num 0) (.num 1)
  let smoothed := jsCalculateEMA normalized prevSmoothed (.num EMA_ALPHA)
  let currentIntensity :=
    if jsLt (.num DEADZONE) smoothed then smoothed else .num 0
  (smoothed, currentIntensity)

/-! ## Landmark-level geometry extraction

`onResults` guards only on `results.multiHandLandmarks` being non-empty
(VideoHUD.tsx line 100) and then indexes into the first hand's landmark
list without any length check; in JavaScript an out-of-range index yields
`undefined` and the following `.x`/`.y` access throws.  The extraction is
modelled with `Option`: `none` is the thrown exception. -/

/-- One 2-D landmark (normalised image coordinates). -/
structure Landmark where
  x : ℚ
  y : ℚ
deriving DecidableEq, Repr

/-- The span computation of VideoHUD.tsx lines 107-109, which reads
landmarks 0 (wrist) and 9 (middle MCP).  The source takes `Math.sqrt` of
this sum of squares; the radicand is returned instead so the model stays
in `ℚ` — the square root affects neither the access pattern nor which
indices are read. -/
def extractScaleSq (lm : List Landmark) : Option ℚ := do
  let p0 ← lm[0]?
  let p9 ← lm[9]?
  pure ((p0.x - p9.x) ^ 2 + (p0.y - p9.y) ^ 2)

/-- One entry of the `fingers` map, VideoHUD.tsx lines 114-117: reads the
tip landmark and its pip neighbour (`tipIdx - 2`). -/
def fingerState (lm : List Landmark) (tipIdx : ℕ) : Option ℕ := do
  let tip ← lm[tipIdx]?
  let pip ← lm[tipIdx - 2]?
  pure (if tip.y < pip.y then 1 else 0)

/-- The `fingers` list for tips 8, 12, 16, 20 (VideoHUD.tsx line 114). -/
def extractFingers (lm : List Landmark) : Option (List ℕ) :=
  [8, 12, 16, 20].mapM (fingerState lm)

/-- The landmark-handling part of `onResults` (VideoHUD.tsx lines 100-131):
an empty `multiHandLandmarks` means "no hand this frame"
(result `some none`); otherwise the first hand is processed by direct
indexing.  `none` models the thrown exception when an accessed landmark
index is out of bounds. -/
def processHands (hands : List (List Landmark)) :
    Option (Option (ℚ × List ℕ)) :=
  match hands with
  | [] => some none
  | lm :: _ =>
    match extractScaleSq lm, extractFingers lm with
    | some s, some f => some (some (s, f))
    | _, _ => none

/-! ## Theorems -/

/-- C1: on every hand-absent frame, if the elapsed time since the last
hand-present frame is strictly below 500 ms the emitted command vector is
the stored `lastValidRC` unchanged, and if it is 500 ms or more the emitted
vector is the neutral `{1500, 1500, 1000, 1500}`; in both regimes the
pipeline state (in particular `lastValidRC`) is not updated. -/
theorem failsafe_no_hand (cal : CalibrationState) (s : PipelineState)
    (now : ℤ) :
    (onResultsStep cal none now s).2 = s ∧
    (now - s.lastHandTime < 500 →
      (onResultsStep cal none now s).1.rc = s.lastValidRC) ∧
    (500 ≤ now - s.lastHandTime →
      (onResultsStep cal none now s).1.rc = neutralRC) := by
  refine ⟨rfl, ?_, ?_⟩
  · intro h
    simp [onResultsStep, h]
  · intro h
    simp [onResultsStep, not_lt.mpr h]

/-- C1 witness: the claim's concrete scenario.  With
`lastValidRC = {1600, 1400, 1200, 1500}` and the last hand seen at t = 0,
hand-absent frames at t = 100 and t = 200 emit the held command, and a
hand-absent frame at t = 600 emits the neutral vector while leaving
`lastValidRC` untouched (the state is unchanged by hand-absent frames, so
all three frames run from the same state). -/
theorem failsafe_no_hand_witness :
    (onResultsStep ⟨3, 1/10, 3/10⟩ none 100
        ⟨0, 0, ⟨1600, 1400, 1200, 1500⟩⟩).1.rc = ⟨1600, 1400, 1200, 1500⟩ ∧
    (onResultsStep ⟨3, 1/10, 3/10⟩ none 200
        ⟨0, 0, ⟨1600, 1400, 1200, 1500⟩⟩).1.rc = ⟨1600, 1400, 1200, 1500⟩ ∧
    (onResultsStep ⟨3, 1/10, 3/10⟩ none 600
        ⟨0, 0, ⟨1600, 1400, 1200, 1500⟩⟩).1.rc = ⟨1500, 1500, 1000, 1500⟩ ∧
    (onResultsStep ⟨3, 1/10, 3/10⟩ none 600
        ⟨0, 0, ⟨1600, 1400, 1200, 1500⟩⟩).2.lastValidRC
      = ⟨1600, 1400, 1200, 1500⟩ :=
  ⟨(failsafe_no_hand ⟨3, 1/10, 3/10⟩ ⟨0, 0, ⟨1600, 1400, 1200, 1500⟩⟩
      100).2.1 (by decide),
   (failsafe_no_hand ⟨3, 1/10, 3/10⟩ ⟨0, 0, ⟨1600, 1400, 1200, 1500⟩⟩
      200).2.1 (by decide),
   (failsafe_no_hand ⟨3, 1/10, 3/10⟩ ⟨0, 0, ⟨1600, 1400, 1200, 1500⟩⟩
      600).2.2 (by decide),
   congrArg PipelineState.lastValidRC
     (failsafe_no_hand ⟨3, 1/10, 3/10⟩ ⟨0, 0, ⟨1600, 1400, 1200, 1500⟩⟩
      600).1⟩

/-- C2: for every gesture and every intensity in [0, 1], all four channels
of the mapped command vector lie within [RC_MIN, RC_MAX] = [1000, 2000]. -/
theorem rcMapping_inBounds (g : GestureType) (i : ℚ)
    (h0 : 0 ≤ i) (h1 : i ≤ 1) : inBounds (rcMapping g i) := by
  have h450l : (0 : ℤ) ≤ ⌊i * (450 : ℚ)⌋ :=
    Int.floor_nonneg.mpr (mul_nonneg h0 (by norm_num))
  have h450u : ⌊i * (450 : ℚ)⌋ ≤ 450 := by
    have hx : i * (450 : ℚ) ≤ 450 := by nlinarith
    have := Int.floor_le_floor hx
    simpa using this
  have h800l : (0 : ℤ) ≤ ⌊i * (800 : ℚ)⌋ :=
    Int.floor_nonneg.mpr (mul_nonneg h0 (by norm_num))
  have h800u : ⌊i * (800 : ℚ)⌋ ≤ 800 := by
    have hx : i * (800 : ℚ) ≤ 800 := by nlinarith
    have := Int.floor_le_floor hx
    simpa using this
  cases g <;>
    simp only [rcMapping, inBounds, RC_MIN, RC_MID, RC_MAX] <;>
    omega

/-- C2 witness: the Up gesture at full intensity stays within bounds. -/
theorem rcMapping_inBounds_witness : inBounds (rcMapping GestureType.UP 1) :=
  rcMapping_inBounds GestureType.UP 1 (by norm_num) (by norm_num)

/-- C3: a sample event in WaitNear (stage 2) with `span <= far_span`
leaves the whole calibration state unchanged and reports a validation
error; with `span > far_span` it transitions to Ready (stage 3) and sets
the near span exactly to the sampled value, leaving the far span
unchanged and reporting no error. -/
theorem sample_waitNear_validation (c : CalibrationState) (v : ℚ)
    (hst : c.stage = 2) :
    (v ≤ c.minScale → handleKeyS v c = (c, true)) ∧
    (c.minScale < v →
      handleKeyS v c = ({ c with maxScale := v, stage := 3 }, false)) := by
  constructor
  · intro hv
    simp [handleKeyS, hst, hv]
  · intro hv
    simp [handleKeyS, hst, not_le.mpr hv]

/-- C3 witness: from `{stage 2, far 0.2, near 0.3}`, sampling 0.1 is
rejected with an error and sampling 0.4 yields `{stage 3, far 0.2,
near 0.4}`. -/
theorem sample_waitNear_validation_witness :
    handleKeyS (1/10) ⟨2, 2/10, 3/10⟩ = (⟨2, 2/10, 3/10⟩, true) ∧
    handleKeyS (4/10) ⟨2, 2/10, 3/10⟩ = (⟨3, 2/10, 4/10⟩, false) :=
  ⟨(sample_waitNear_validation ⟨2, 2/10, 3/10⟩ (1/10) rfl).1 (by norm_num),
   (sample_waitNear_validation ⟨2, 2/10, 3/10⟩ (4/10) rfl).2 (by norm_num)⟩

/-- C4 counterexample: `begin_calibration` does not clear the stored
spans.  From `{stage 3, far 7, near 9}` the C key yields stage 1 (WaitFar)
but the spans remain 7 and 9; moreover the resulting spans differ between
two starting states, so they are not set to any fixed cleared value. -/
theorem beginCalibration_spans_cex :
    (handleKeyC ⟨3, 7, 9⟩).stage = 1 ∧
    (handleKeyC ⟨3, 7, 9⟩).minScale = 7 ∧
    (handleKeyC ⟨3, 7, 9⟩).maxScale = 9 ∧
    (handleKeyC ⟨3, 7, 9⟩).minScale ≠ (handleKeyC ⟨3, 5, 6⟩).minScale := by
  refine ⟨rfl, rfl, rfl, by norm_num [handleKeyC]⟩

/-- C4 amended: `begin_calibration` in any state transitions the stage to
WaitFar (1) and leaves both stored spans unchanged. -/
theorem beginCalibration_waitFar_keeps_spans (c : CalibrationState) :
    (handleKeyC c).stage = 1 ∧
    (handleKeyC c).minScale = c.minScale ∧
    (handleKeyC c).maxScale = c.maxScale :=
  ⟨rfl, rfl, rfl⟩

/-- C5: in every calibration state reachable from the initial state by
begin-calibration and sample events, stage Ready (3) implies
`near_span > far_span` strictly. -/
theorem ready_invariant {c : CalibrationState} (hr : ReachableCal c)
    (hstage : c.stage = 3) : c.minScale < c.maxScale := by
  induction hr with
  | init => simp [initialCalibration] at hstage
  | @step e c hc ih =>
    cases e with
    | keyC => simp [calStep, handleKeyC] at hstage
    | keyS v =>
      by_cases h1 : c.stage = 1
      · simp [calStep, handleKeyS, h1] at hstage
      · by_cases h2 : c.stage = 2
        · by_cases hv : v ≤ c.minScale
          · simp [calStep, handleKeyS, h1, h2, hv] at hstage
          · simpa [calStep, handleKeyS, h1, h2, hv] using not_le.mp hv
        · simp only [calStep, handleKeyS, h1, h2, if_false] at hstage ⊢
          exact ih hstage

/-- C5 witness: the concrete run C, S 2, S 4 reaches Ready with
near span 4 strictly above far span 2. -/
theorem ready_invariant_witness :
    (calStep (.keyS 4)
        (calStep (.keyS 2) (calStep .keyC initialCalibration))).minScale
      < (calStep (.keyS 4)
        (calStep (.keyS 2) (calStep .keyC initialCalibration))).maxScale :=
  ready_invariant
    (ReachableCal.step (.keyS 4)
      (ReachableCal.step (.keyS 2)
        (ReachableCal.step .keyC ReachableCal.init)))
    (by norm_num [calStep, handleKeyS, handleKeyC, initialCalibration])

/-- C6: gesture classification is a pure function of the 4-bit
finger-extension pattern (order index, middle, ring, pinky) matching the
fixed priority table — all four extended gives Forward, none gives
Backward, exactly the index finger gives Up, everything else Hover — and
a no-hand frame classifies as None. -/
theorem classifyGesture_matches_table :
    (∀ b1 b2 b3 b4 : Bool,
      classifyGesture (fingerBits b1 b2 b3 b4) =
        (if b1 && b2 && b3 && b4 then GestureType.FORWARD
         else if !b1 && !b2 && !b3 && !b4 then GestureType.BACKWARD
         else if b1 && !b2 && !b3 && !b4 then GestureType.UP
         else GestureType.HOVER)) ∧
    (∀ (cal : CalibrationState) (now : ℤ) (s : PipelineState),
      (onResultsStep cal none now s).1.gesture = GestureType.NONE) := by
  constructor
  · decide
  · intro cal now s
    rfl

/-- C7: the deadzone threshold is 0.05; a smoothed value at or below it
yields emitted intensity exactly 0, and a smoothed value strictly above it
passes through unchanged (no rescaling); this is exactly the intensity the
Ready-stage pipeline emits for its smoothed filter value. -/
theorem deadzone_truncates (s : ℚ) :
    DEADZONE = 5/100 ∧
    (s ≤ DEADZONE → deadzoneIntensity s = 0) ∧
    (DEADZONE < s → deadzoneIntensity s = s) ∧
    (∀ (cal : CalibrationState) (h : HandObs) (now : ℤ) (st : PipelineState),
      cal.stage = 3 →
        (onResultsStep cal (some h) now st).1.intensity =
          deadzoneIntensity (calculateEMA
            (clamp ((h.rawScale - cal.minScale) /
              (cal.maxScale - cal.minScale)) 0 1)
            st.smoothedIntensity EMA_ALPHA)) := by
  refine ⟨rfl, ?_, ?_, ?_⟩
  · intro hle
    exact if_neg (not_lt.mpr hle)
  · intro hgt
    exact if_pos hgt
  · intro cal h now st hst
    simp [onResultsStep, hst]

/-- C7 witness: at the threshold itself (0.05) the intensity is 0, and at
0.1 the smoothed value passes through unchanged. -/
theorem deadzone_truncates_witness :
    deadzoneIntensity (1/20) = 0 ∧ deadzoneIntensity (1/10) = 1/10 :=
  ⟨(deadzone_truncates (1/20)).2.1 (by norm_num [DEADZONE]),
   (deadzone_truncates (1/10)).2.2.1 (by norm_num [DEADZONE])⟩

/-- C8: with a degenerate Ready calibration (`near_span = far_span = 0.2`)
and a hand-present frame with span 0.2 and previous filter state 0, the
normaliser computes `0/0 = NaN`, no invalid-calibration condition exists
in the code, and the NaN is stored into the persistent
`smoothedIntensity` filter state (the emitted intensity for the frame is
0, since `NaN > DEADZONE` is false); once there, the NaN persists even
after a well-formed calibration frame. -/
theorem degenerate_calibration_nan :
    (jsNormalizeSmooth (.num (2/10)) (.num (2/10)) (.num (2/10))
      (.num 0)).1 = JSNum.nan ∧
    (jsNormalizeSmooth (.num (2/10)) (.num (2/10)) (.num (2/10))
      (.num 0)).2 = JSNum.num 0 ∧
    (jsNormalizeSmooth (.num (2/10)) (.num (3/10)) (.num (25/100))
      JSNum.nan).1 = JSNum.nan := by
  refine ⟨?_, ?_, ?_⟩ <;>
    norm_num [jsNormalizeSmooth, jsCalculateEMA, jsClamp, jsMax, jsMin,
      jsDiv, jsSub, jsMul, jsAdd, jsLt, EMA_ALPHA, DEADZONE]

/-- C9: a detected hand whose landmark list is malformed (here a single
point instead of 21) makes the geometry extraction read landmark index 9
out of bounds — the frame processing fails (models the thrown
`TypeError`) instead of being treated as a no-hand frame; an empty
hand list, by contrast, is handled as "no hand this frame". -/
theorem malformed_landmarks_oob :
    processHands [[⟨0, 0⟩]] = none ∧
    processHands [] = some none :=
  ⟨rfl, rfl⟩

/-- C10: a hand-present frame whose calibration stage is not Ready emits
the stored `lastValidRC` with intensity 0 and leaves both `lastValidRC`
and the smoothed filter state unchanged; `lastValidRC` starts as the
neutral vector at mount and is only ever replaced by hand-present
Ready-stage frames. -/
theorem hand_not_ready_emits_hold :
    (∀ (cal : CalibrationState) (h : HandObs) (now : ℤ) (s : PipelineState),
      cal.stage ≠ 3 →
        (onResultsStep cal (some h) now s).1.rc = s.lastValidRC ∧
        (onResultsStep cal (some h) now s).1.intensity = 0 ∧
        (onResultsStep cal (some h) now s).2.lastValidRC = s.lastValidRC ∧
        (onResultsStep cal (some h) now s).2.smoothedIntensity
          = s.smoothedIntensity) ∧
    (∀ t0 : ℤ, (initialState t0).lastValidRC = neutralRC) ∧
    (∀ (cal : CalibrationState) (hand : Option HandObs) (now : ℤ)
        (s : PipelineState),
      ¬(hand.isSome = true ∧ cal.stage = 3) →
        (onResultsStep cal hand now s).2.lastValidRC = s.lastValidRC) := by
  refine ⟨?_, fun _ => rfl, ?_⟩
  · intro cal h now s hst
    simp [onResultsStep, hst]
  · intro cal hand now s hns
    match hand with
    | none => rfl
    | some h =>
      have hst : cal.stage ≠ 3 := fun hc => hns ⟨rfl, hc⟩
      simp [onResultsStep, hst]

/-- C10 witness: a hand-present frame in the Idle stage, from the mount
state, emits the neutral vector (the initial `lastValidRC`) with
intensity 0. -/
theorem hand_not_ready_emits_hold_witness :
    (onResultsStep ⟨0, 1/10, 3/10⟩ (some ⟨2/10, [1, 1, 1, 1]⟩) 50
      (initialState 0)).1.rc = neutralRC ∧
    (onResultsStep ⟨0, 1/10, 3/10⟩ (some ⟨2/10, [1, 1, 1, 1]⟩) 50
      (initialState 0)).1.intensity = 0 :=
  ⟨(hand_not_ready_emits_hold.1 ⟨0, 1/10, 3/10⟩ ⟨2/10, [1, 1, 1, 1]⟩ 50
      (initialState 0) (by decide)).1,
   (hand_not_ready_emits_hold.1 ⟨0, 1/10, 3/10⟩ ⟨2/10, [1, 1, 1, 1]⟩ 50
      (initialState 0) (by decide)).2.1⟩

end F450
